import Mathlib

/-!
Verification of the CleanAirSight data-processing core against its
natural-language specification.

The Python sources under `backend/` are embedded shallowly:

* machine floats are modelled by exact rationals (`ℚ`); where the source
  applies transcendental functions (`sqrt`, `sin`, `cos`, `arctan2`) the
  embedding uses the corresponding real functions on `ℝ`;
* Python `None`/`NaN` values are modelled by `Option`;
* a Python function that can raise is modelled with `Except`;
* Python `dict` rows are modelled by structures with `Option` fields for
  keys that may be absent, and string-keyed feature maps (`String → Option ℝ`)
  where the source manipulates dynamic dictionaries;
* timestamps are modelled as integer hours on a linear clock (the sources
  only compare, subtract and shift timestamps; Gregorian month/day-of-year
  decomposition, used in features no claim touches, is modelled by a
  simplified 30-day/365-day calendar).
-/

open scoped Classical

/-! ## AQI calculator (`DataHarmonizer.calculate_aqi`) -/

/-- Python `int()` applied to a rational: truncation toward zero. -/
def pyInt (q : ℚ) : ℤ :=
  q.num / (q.den : ℤ)

/-- Python 3 `round()` to an integer: round half to even. -/
def pyRound (q : ℚ) : ℤ :=
  if q - (⌊q⌋ : ℚ) = 1 / 2 then (if ⌊q⌋ % 2 = 0 then ⌊q⌋ else ⌊q⌋ + 1)
  else ⌊q + 1 / 2⌋

/-- Result of `calculate_aqi`: the `aqi` slot is `None` for an unknown
pollutant, hence `Option`. -/
structure AqiResult where
  aqi : Option ℤ
  category : String
deriving DecidableEq, Repr

/-- The `categories` list of `calculate_aqi`. -/
def categories : List String :=
  ["Good", "Moderate", "Unhealthy for Sensitive Groups", "Unhealthy",
   "Very Unhealthy", "Hazardous"]

/-- EPA AQI breakpoint table of `calculate_aqi`: rows are
`(c_low, c_high, i_low, i_high)`, keyed by pollutant. -/
def breakpoints : String → Option (List (ℚ × ℚ × ℚ × ℚ))
  | "PM2.5" => some
      [(0, 12.0, 0, 50), (12.1, 35.4, 51, 100), (35.5, 55.4, 101, 150),
       (55.5, 150.4, 151, 200), (150.5, 250.4, 201, 300), (250.5, 500.4, 301, 500)]
  | "PM10" => some
      [(0, 54, 0, 50), (55, 154, 51, 100), (155, 254, 101, 150),
       (255, 354, 151, 200), (355, 424, 201, 300), (425, 604, 301, 500)]
  | "O3" => some
      [(0, 54, 0, 50), (55, 70, 51, 100), (71, 85, 101, 150),
       (86, 105, 151, 200), (106, 200, 201, 300)]
  | "NO2" => some
      [(0, 53, 0, 50), (54, 100, 51, 100), (101, 360, 101, 150),
       (361, 649, 151, 200), (650, 1249, 201, 300), (1250, 2049, 301, 500)]
  | _ => none

/-- The `for bp in breakpoints[pollutant]` scan: first row whose
concentration interval contains `c`. -/
def findBp (c : ℚ) : List (ℚ × ℚ × ℚ × ℚ) → Option (ℚ × ℚ × ℚ × ℚ)
  | [] => none
  | bp :: rest => if bp.1 ≤ c ∧ c ≤ bp.2.1 then some bp else findBp c rest

/-- `DataHarmonizer.calculate_aqi`: piecewise-linear interpolation on the
matching breakpoint row, category via `min(int(aqi/50), 5)` indexing, and the
fall-through `{aqi: 500, category: "Hazardous"}` for a concentration inside
no row. -/
def calculate_aqi (pollutant : String) (concentration : ℚ) : AqiResult :=
  match breakpoints pollutant with
  | none => ⟨none, "Unknown"⟩
  | some bps =>
    match findBp concentration bps with
    | some (c_low, c_high, i_low, i_high) =>
      let aqi := (i_high - i_low) / (c_high - c_low) * (concentration - c_low) + i_low
      let category_index := min (pyInt (aqi / 50)) (categories.length - 1)
      ⟨some (pyRound aqi), categories.getD category_index.toNat ""⟩
    | none => ⟨some 500, "Hazardous"⟩

/-! ## Unit normalizer (`DataHarmonizer._normalize_value`) -/

/-- `DataHarmonizer.CONVERSION_FACTORS`: per-pollutant unit → factor tables
(to µg/m³). -/
def CONVERSION_FACTORS : String → Option (List (String × ℚ))
  | "NO2" => some [("ppb", 1.88), ("ppm", 1880), ("µg/m³", 1)]
  | "O3" => some [("ppb", 1.96), ("ppm", 1960), ("µg/m³", 1)]
  | "PM2.5" => some [("µg/m³", 1), ("mg/m³", 1000)]
  | "PM10" => some [("µg/m³", 1), ("mg/m³", 1000)]
  | "CO" => some [("ppb", 1.145), ("ppm", 1145), ("mg/m³", 1000), ("µg/m³", 1)]
  | "SO2" => some [("ppb", 2.62), ("ppm", 2620), ("µg/m³", 1)]
  | "HCHO" => some [("ppb", 1.23), ("ppm", 1230), ("µg/m³", 1)]
  | _ => none

/-- `DataHarmonizer._normalize_value`: `None`/NaN in, `None` out; unknown
pollutant → value unchanged; otherwise multiply by the table factor, an
unlisted unit defaulting to factor `1.0`. -/
def normalize_value (value : Option ℚ) (pollutant : String) (unit : String) : Option ℚ :=
  match value with
  | none => none
  | some v =>
    match CONVERSION_FACTORS pollutant with
    | none => some v
    | some tbl => some (v * ((tbl.lookup unit).getD 1.0))

/-! ## Harmonizer (`DataHarmonizer.harmonize_all_data`) -/

/-- A raw ingestion record (`record.get(...)` keys that may be absent are
`Option`; a NaN value is modelled as `none`). -/
structure RawRecord where
  timestamp : Option String
  lat : Option ℚ
  lon : Option ℚ
  pollutant_type : Option String
  value : Option ℚ
  unit : Option String
  source : Option String
  quality_flag : Option String
  uncertainty : Option ℚ
  city : Option String
  location : Option String
  aqi : Option ℚ

/-- A weather sample as consumed by `_enrich_with_weather` /
`_find_nearest_weather`. -/
structure WRecord where
  timestamp : Option String
  lat : ℚ
  lon : ℚ
  temperature : Option ℚ
  humidity : Option ℚ
  wind_speed : Option ℚ
  wind_direction : Option ℚ
  pressure : Option ℚ

/-- The `weather_context` dict attached by `_enrich_with_weather`. -/
structure WeatherCtx where
  temperature : Option ℚ
  humidity : Option ℚ
  wind_speed : Option ℚ
  wind_direction : Option ℚ
  pressure : Option ℚ

/-- A harmonized record as built by `_harmonize_tempo_record` /
`_harmonize_ground_record`. -/
structure HRecord where
  timestamp : String
  lat : ℚ
  lon : ℚ
  pollutant_type : Option String
  value : Option ℚ
  source : String
  quality_flag : Option String
  uncertainty : Option ℚ
  city : Option String
  location : Option String
  aqi : Option ℚ
  data_type : String
  spatial_resolution : String
  weather_context : Option WeatherCtx := none

/-- `DataHarmonizer._parse_timestamp`: pandas datetime parsing and ISO
re-rendering are modelled as the identity on present strings; a missing
timestamp receives the current time `now` (`datetime.utcnow()`). -/
def parse_timestamp (now : String) : Option String → String
  | some s => s
  | none => now

/-- `DataHarmonizer._harmonize_tempo_record`: the `float()` casts raise on a
missing lat/lon, in which case the `except` drops the record (`none`). A
missing pollutant is modelled by the key `""`, which, like Python `None`, is
not in the conversion table. -/
def harmonize_tempo_record (now : String) (r : RawRecord) : Option HRecord :=
  match r.lat, r.lon with
  | some lat, some lon =>
    some { timestamp := parse_timestamp now r.timestamp
           lat := lat, lon := lon
           pollutant_type := r.pollutant_type
           value := normalize_value r.value (r.pollutant_type.getD "") "µg/m³"
           source := "TEMPO"
           quality_flag := some (r.quality_flag.getD "unknown")
           uncertainty := r.uncertainty
           city := none, location := none, aqi := none
           data_type := "satellite", spatial_resolution := "high" }
  | _, _ => none

/-- `DataHarmonizer._harmonize_ground_record`. -/
def harmonize_ground_record (now : String) (r : RawRecord) : Option HRecord :=
  match r.lat, r.lon with
  | some lat, some lon =>
    some { timestamp := parse_timestamp now r.timestamp
           lat := lat, lon := lon
           pollutant_type := r.pollutant_type
           value := normalize_value r.value (r.pollutant_type.getD "") (r.unit.getD "µg/m³")
           source := r.source.getD "Ground"
           quality_flag := none
           uncertainty := none
           city := r.city, location := r.location, aqi := r.aqi
           data_type := "ground", spatial_resolution := "point" }
  | _, _ => none

/-- `DataHarmonizer._find_nearest_weather`: planar degree distance, keep
below 0.5°, stable-sort ascending and take the head (= earliest minimizer). -/
noncomputable def find_nearest_weather (lat lon : ℚ) (ws : List WRecord) : Option WRecord :=
  if ws.isEmpty then none
  else
    (ws.filter fun w =>
        decide (Real.sqrt (((w.lat - lat : ℚ) : ℝ) ^ 2 + ((w.lon - lon : ℚ) : ℝ) ^ 2) < 0.5)
      ).argmin fun w =>
        Real.sqrt (((w.lat - lat : ℚ) : ℝ) ^ 2 + ((w.lon - lon : ℚ) : ℝ) ^ 2)

/-- `DataHarmonizer._enrich_with_weather`. -/
noncomputable def enrich_with_weather (data : List HRecord) (weather : List WRecord) :
    List HRecord :=
  if weather.isEmpty then data
  else data.map fun r =>
    match find_nearest_weather r.lat r.lon weather with
    | none => r
    | some w =>
      { r with weather_context := some (WeatherCtx.mk w.temperature w.humidity w.wind_speed w.wind_direction w.pressure) }

/-- Pandas `fillna(method='ffill')` over one column: each missing cell takes
the last present value before it. -/
def ffillAux (prev : Option ℚ) : List (Option ℚ) → List (Option ℚ)
  | [] => []
  | none :: rest => prev :: ffillAux prev rest
  | some v :: rest => some v :: ffillAux (some v) rest

/-- `DataHarmonizer._handle_missing_values`: forward fill then backward fill
of the `value` column (the `lat`/`lon` columns are total in this embedding,
so their fill is the identity); an all-missing column stays missing. -/
def handle_missing_values (data : List HRecord) : List HRecord :=
  let filled := (ffillAux none (ffillAux none (data.map (·.value))).reverse).reverse
  (data.zip filled).map fun rv => { rv.1 with value := rv.2 }

/-- `DataHarmonizer.harmonize_all_data`: map both sources (dropping records
whose harmonization raised), enrich with weather, fill missing values. -/
noncomputable def harmonize_all_data (now : String) (tempo ground : List RawRecord)
    (weather : List WRecord) : List HRecord :=
  handle_missing_values
    (enrich_with_weather
      (tempo.filterMap (harmonize_tempo_record now)
        ++ ground.filterMap (harmonize_ground_record now))
      weather)

/-! ## Spatio-temporal validator (`DataValidator`) -/

/-- A measurement as consumed by `validate_against_ground`; the parsed
timestamp is modelled as an exact number of hours on a linear clock, so
`(a.timestamp - b.timestamp)` is already the signed time difference in
hours. -/
structure VRecord where
  timestamp : ℚ
  lat : ℚ
  lon : ℚ
  pollutant_type : String
  value : ℚ

/-- numpy `arctan2 y x`. -/
noncomputable def atan2 (y x : ℝ) : ℝ :=
  if 0 < x then Real.arctan (y / x)
  else if x < 0 ∧ 0 ≤ y then Real.arctan (y / x) + Real.pi
  else if x < 0 ∧ y < 0 then Real.arctan (y / x) - Real.pi
  else if x = 0 ∧ 0 < y then Real.pi / 2
  else if x = 0 ∧ y < 0 then -(Real.pi / 2)
  else 0

/-- numpy `radians`. -/
noncomputable def radians (x : ℝ) : ℝ := x * Real.pi / 180

/-- `DataValidator._haversine_distance` with Earth radius 6371 km. -/
noncomputable def haversine_distance (lat1 lon1 lat2 lon2 : ℚ) : ℝ :=
  let lat1_rad := radians (lat1 : ℝ)
  let lat2_rad := radians (lat2 : ℝ)
  let dlat := radians ((lat2 - lat1 : ℚ) : ℝ)
  let dlon := radians ((lon2 - lon1 : ℚ) : ℝ)
  let a := Real.sin (dlat / 2) ^ 2 +
    Real.cos lat1_rad * Real.cos lat2_rad * Real.sin (dlon / 2) ^ 2
  6371 * (2 * atan2 (Real.sqrt a) (Real.sqrt (1 - a)))

/-- `DataValidator._find_matching_ground_measurements`: same pollutant, then
haversine distance within `max_distance_km`, then absolute time difference
within `max_time_diff_hours`. (The early `if matches.empty: return matches`
of the source equals filtering the empty list through the remaining steps.) -/
noncomputable def find_matching_ground_measurements (t : VRecord) (ground : List VRecord)
    (max_distance_km max_time_diff_hours : ℚ) : List VRecord :=
  let m1 := ground.filter fun g => g.pollutant_type == t.pollutant_type
  let m2 := m1.filter fun g =>
    decide (haversine_distance t.lat t.lon g.lat g.lon ≤ (max_distance_km : ℝ))
  m2.filter fun g => decide (|g.timestamp - t.timestamp| ≤ max_time_diff_hours)

/-- One entry of `validate_against_ground`'s output. `ground_std` is
`np.std` (population standard deviation), a real number. -/
structure ValidationResult where
  timestamp : ℚ
  lat : ℚ
  lon : ℚ
  pollutant_type : String
  tempo_value : ℚ
  ground_mean : ℚ
  ground_std : ℝ
  ground_count : ℕ
  relative_diff : ℚ
  absolute_diff : ℚ
  high_discrepancy : Bool
  confidence : ℚ
  confidence_level : String
  validation_status : String

/-- `np.mean` of a list of rationals (0 for an empty list, never reached by
the callers). -/
def listMean (xs : List ℚ) : ℚ := xs.sum / xs.length

/-- `np.std` (population, ddof = 0). -/
noncomputable def listStd (xs : List ℚ) : ℝ :=
  Real.sqrt ((((xs.map fun x => (x - listMean xs) ^ 2).sum / xs.length : ℚ) : ℝ))

/-- `DataValidator._calculate_validation_metrics`. -/
noncomputable def calculate_validation_metrics (discrepancy_threshold : ℚ)
    (t : VRecord) (ground_matches : List VRecord) : ValidationResult :=
  let ground_values := ground_matches.map (·.value)
  let ground_mean := listMean ground_values
  let relative_diff := if 0 < ground_mean then |t.value - ground_mean| / ground_mean else 0
  let confidence := max 0 (1 - relative_diff)
  { timestamp := t.timestamp, lat := t.lat, lon := t.lon
    pollutant_type := t.pollutant_type
    tempo_value := t.value
    ground_mean := ground_mean
    ground_std := listStd ground_values
    ground_count := ground_matches.length
    relative_diff := relative_diff
    absolute_diff := |t.value - ground_mean|
    high_discrepancy := decide (discrepancy_threshold < relative_diff)
    confidence := confidence
    confidence_level :=
      if 0.8 ≤ confidence then "high" else if 0.6 ≤ confidence then "medium" else "low"
    validation_status := "validated" }

/-- `DataValidator.validate_against_ground` (`threshold` is the instance's
`discrepancy_threshold`): empty input on either side short-circuits to `[]`;
otherwise one result per satellite record with at least one match. -/
noncomputable def validate_against_ground (threshold : ℚ) (tempo ground : List VRecord)
    (max_distance_km max_time_diff_hours : ℚ) : List ValidationResult :=
  if tempo.isEmpty || ground.isEmpty then []
  else tempo.filterMap fun t =>
    let ms := find_matching_ground_measurements t ground max_distance_km max_time_diff_hours
    if ms.isEmpty then none
    else some (calculate_validation_metrics threshold t ms)

/-! ## Anomaly flagger (`DataValidator.flag_anomalies`) -/

/-- An input record of `flag_anomalies` (the columns it reads). -/
structure ARecord where
  pollutant_type : String
  value : ℚ

/-- An output record: the two added columns. `z_score` is a float (it
divides by a square root), `is_anomaly` the proposition the float
comparison decides. -/
structure FlaggedRecord where
  pollutant_type : String
  value : ℚ
  z_score : ℝ
  is_anomaly : Prop

/-- `df.loc[mask, "value"]` for one pollutant partition. -/
def groupValues (data : List ARecord) (p : String) : List ℚ :=
  (data.filter fun r => r.pollutant_type == p).map (·.value)

/-- Pandas `Series.std()` squares to the SAMPLE variance (ddof = 1). -/
def sampleVar (xs : List ℚ) : ℚ :=
  (xs.map fun x => (x - listMean xs) ^ 2).sum / ((xs.length : ℚ) - 1)

/-- Whether some partition has more than 2 samples — exactly when the loop
body ever ran, i.e. when the `z_score`/`is_anomaly` columns exist by the
time of the final `fillna`. -/
def hasBigPartition (data : List ARecord) : Bool :=
  data.any fun r => 2 < (groupValues data r.pollutant_type).length

/-- Per-record outcome of `flag_anomalies` after the loop and the final
`fillna` (a record whose partition the loop skipped keeps NaN cells, filled
to `0` / `False`). -/
noncomputable def flagRecord (data : List ARecord) (z_threshold : ℚ) (r : ARecord) :
    FlaggedRecord :=
  let g := groupValues data r.pollutant_type
  if 2 < g.length then
    if 0 < Real.sqrt (sampleVar g) then
      let z := ((|r.value - listMean g| : ℚ) : ℝ) / Real.sqrt (sampleVar g)
      ⟨r.pollutant_type, r.value, z, z > (z_threshold : ℝ)⟩
    else ⟨r.pollutant_type, r.value, 0, False⟩
  else ⟨r.pollutant_type, r.value, 0, False⟩

/-- `DataValidator.flag_anomalies`: an empty frame is returned as is; when
no partition has more than 2 samples the columns were never created and
`df["is_anomaly"].fillna(False)` raises `KeyError` (modelled as `.error`);
otherwise every record comes back annotated in order. -/
noncomputable def flag_anomalies (data : List ARecord) (z_threshold : ℚ) :
    Except String (List FlaggedRecord) :=
  if data.isEmpty then .ok []
  else if hasBigPartition data then .ok (data.map (flagRecord data z_threshold))
  else .error "is_anomaly"

/-- Z-score of the `i`-th output record of a `flag_anomalies` run. -/
noncomputable def zOf (e : Except String (List FlaggedRecord)) (i : ℕ) : ℝ :=
  match e with
  | .ok l => ((l.get? i).map (·.z_score)).getD 0
  | .error _ => 0

/-! ## Forecasting engine (`ForecastingEngine`) -/

/-- An input series row as read by `prepare_features` (timestamps are
integer hours on a linear clock). -/
structure SeriesRow where
  timestamp : ℤ
  value : ℚ
  lat : Option ℚ
  lon : Option ℚ
  temperature : Option ℚ
  humidity : Option ℚ
  wind_speed : Option ℚ
  pressure : Option ℚ

/-- An engineered feature row produced by `prepare_features`. -/
structure FRow where
  timestamp : ℤ
  value : ℚ
  lat : ℚ
  lon : ℚ
  temperature : Option ℚ
  humidity : Option ℚ
  wind_speed : Option ℚ
  pressure : Option ℚ
  hour : ℤ
  day_of_week : ℤ
  month : ℤ
  day_of_year : ℤ
  hour_sin : ℝ
  hour_cos : ℝ
  day_sin : ℝ
  day_cos : ℝ
  month_sin : ℝ
  month_cos : ℝ
  lag_1 : Option ℚ
  lag_2 : Option ℚ
  lag_3 : Option ℚ
  lag_6 : Option ℚ
  lag_12 : Option ℚ
  lag_24 : Option ℚ
  rolling_mean_3 : ℚ
  rolling_mean_6 : ℚ
  rolling_mean_12 : ℚ
  rolling_mean_24 : ℚ
  rolling_std_3 : Option ℝ
  rolling_std_12 : Option ℝ

/-- Pandas `Series.median()`: middle of the sorted present values, averaging
the two middles for an even count; NaN (`none`) when no value is present. -/
def listMedian (xs : List ℚ) : Option ℚ :=
  let s := xs.mergeSort fun a b => decide (a ≤ b)
  if s.isEmpty then none
  else if s.length % 2 = 1 then s.get? (s.length / 2)
  else match s.get? (s.length / 2 - 1), s.get? (s.length / 2) with
    | some a, some b => some ((a + b) / 2)
    | _, _ => none

/-- `df[col].fillna(df[col].median())` for one weather column. -/
def imputeMedian (col : List (Option ℚ)) : List (Option ℚ) :=
  let med := listMedian (col.filterMap id)
  col.map fun v => v.orElse fun _ => med

/-- The values a width-`w` rolling window sees at index `i`
(`min_periods=1`: up to `w` values ending at `i`). -/
def windowVals (vals : List ℚ) (w i : ℕ) : List ℚ :=
  (vals.take (i + 1)).drop (i + 1 - w)

/-- `rolling(window=w, min_periods=1).mean()` at index `i`. -/
def rollingMean (vals : List ℚ) (w i : ℕ) : ℚ := listMean (windowVals vals w i)

/-- `rolling(window=w, min_periods=1).std()` at index `i`: sample std
(ddof = 1), NaN for a single-element window. -/
noncomputable def rollingStd (vals : List ℚ) (w i : ℕ) : Option ℝ :=
  if (windowVals vals w i).length < 2 then none
  else some (Real.sqrt ((sampleVar (windowVals vals w i) : ℚ) : ℝ))

/-- `df['value'].shift(k)` at index `i`. -/
def lagVal (vals : List ℚ) (k i : ℕ) : Option ℚ :=
  if k ≤ i then vals.get? (i - k) else none

/-- One engineered row (position `i` of the time-sorted frame; the already
median-imputed weather columns are passed alongside). -/
noncomputable def engineerRow (sorted : List SeriesRow)
    (temps hums winds press : List (Option ℚ)) (i : ℕ) (r : SeriesRow) : FRow :=
  let vals := sorted.map (·.value)
  let h := r.timestamp % 24
  let dw := (r.timestamp / 24) % 7
  let mo := (r.timestamp / 24 / 30) % 12 + 1
  let dy := (r.timestamp / 24) % 365 + 1
  { timestamp := r.timestamp
    value := r.value
    lat := r.lat.getD 0
    lon := r.lon.getD 0
    temperature := (temps.get? i).getD none
    humidity := (hums.get? i).getD none
    wind_speed := (winds.get? i).getD none
    pressure := (press.get? i).getD none
    hour := h
    day_of_week := dw
    month := mo
    day_of_year := dy
    hour_sin := Real.sin (2 * Real.pi * (h : ℝ) / 24)
    hour_cos := Real.cos (2 * Real.pi * (h : ℝ) / 24)
    day_sin := Real.sin (2 * Real.pi * (dw : ℝ) / 7)
    day_cos := Real.cos (2 * Real.pi * (dw : ℝ) / 7)
    month_sin := Real.sin (2 * Real.pi * (mo : ℝ) / 12)
    month_cos := Real.cos (2 * Real.pi * (mo : ℝ) / 12)
    lag_1 := lagVal vals 1 i
    lag_2 := lagVal vals 2 i
    lag_3 := lagVal vals 3 i
    lag_6 := lagVal vals 6 i
    lag_12 := lagVal vals 12 i
    lag_24 := lagVal vals 24 i
    rolling_mean_3 := rollingMean vals 3 i
    rolling_mean_6 := rollingMean vals 6 i
    rolling_mean_12 := rollingMean vals 12 i
    rolling_mean_24 := rollingMean vals 24 i
    rolling_std_3 := rollingStd vals 3 i
    rolling_std_12 := rollingStd vals 12 i }

/-- `ForecastingEngine.prepare_features`: sort by timestamp, engineer
time/cyclical/lag/rolling features with median-imputed weather covariates,
then drop every row missing one of lags 1, 2, 3. -/
noncomputable def prepare_features (df : List SeriesRow) : List FRow :=
  let sorted := df.mergeSort fun a b => decide (a.timestamp ≤ b.timestamp)
  let temps := imputeMedian (sorted.map (·.temperature))
  let hums := imputeMedian (sorted.map (·.humidity))
  let winds := imputeMedian (sorted.map (·.wind_speed))
  let press := imputeMedian (sorted.map (·.pressure))
  (sorted.mapIdx (engineerRow sorted temps hums winds press)).filter
    fun fr => fr.lag_1.isSome && fr.lag_2.isSome && fr.lag_3.isSome

/-- `current_features`: a string-keyed row dict, absent keys `none`. -/
def Features := String → Option ℝ

/-- A trained regressor, opaque: consumes a feature dict, yields a float. -/
def Model := Features → ℝ

/-- The engine state `predict` reads: the per-pollutant model store and the
persisted `feature_columns` list. -/
structure Engine where
  models : String → Option Model
  feature_columns : List String

/-- Numeric read of one engineered column by name (the non-numeric columns
`pollutant_type`/`source`/`city`/`location` are excluded from
`feature_columns` by training, so only float-valued columns are readable). -/
noncomputable def FRow.lookup (r : FRow) : String → Option ℝ
  | "timestamp" => some (r.timestamp : ℝ)
  | "value" => some ((r.value : ℚ) : ℝ)
  | "lat" => some ((r.lat : ℚ) : ℝ)
  | "lon" => some ((r.lon : ℚ) : ℝ)
  | "temperature" => r.temperature.map fun q => ((q : ℚ) : ℝ)
  | "humidity" => r.humidity.map fun q => ((q : ℚ) : ℝ)
  | "wind_speed" => r.wind_speed.map fun q => ((q : ℚ) : ℝ)
  | "pressure" => r.pressure.map fun q => ((q : ℚ) : ℝ)
  | "hour" => some (r.hour : ℝ)
  | "day_of_week" => some (r.day_of_week : ℝ)
  | "month" => some (r.month : ℝ)
  | "day_of_year" => some (r.day_of_year : ℝ)
  | "hour_sin" => some r.hour_sin
  | "hour_cos" => some r.hour_cos
  | "day_sin" => some r.day_sin
  | "day_cos" => some r.day_cos
  | "month_sin" => some r.month_sin
  | "month_cos" => some r.month_cos
  | "lag_1" => r.lag_1.map fun q => ((q : ℚ) : ℝ)
  | "lag_2" => r.lag_2.map fun q => ((q : ℚ) : ℝ)
  | "lag_3" => r.lag_3.map fun q => ((q : ℚ) : ℝ)
  | "lag_6" => r.lag_6.map fun q => ((q : ℚ) : ℝ)
  | "lag_12" => r.lag_12.map fun q => ((q : ℚ) : ℝ)
  | "lag_24" => r.lag_24.map fun q => ((q : ℚ) : ℝ)
  | "rolling_mean_3" => some ((r.rolling_mean_3 : ℚ) : ℝ)
  | "rolling_mean_6" => some ((r.rolling_mean_6 : ℚ) : ℝ)
  | "rolling_mean_12" => some ((r.rolling_mean_12 : ℚ) : ℝ)
  | "rolling_mean_24" => some ((r.rolling_mean_24 : ℚ) : ℝ)
  | "rolling_std_3" => r.rolling_std_3
  | "rolling_std_12" => r.rolling_std_12
  | _ => none

/-- `last_row[self.feature_columns].to_dict()`. -/
noncomputable def currentFeatures (cols : List String) (r : FRow) : Features :=
  fun s => if s ∈ cols then r.lookup s else none

/-- Dict assignment `current_features[k] = v`. -/
def updKey (m : Features) (k : String) (v : ℝ) : Features :=
  fun s => if s = k then some v else m s

/-- The f-string key `f'lag_{k}'`. -/
def lagName (k : ℕ) : String := "lag_" ++ toString k

/-- One iteration of the shift loop: `current_features[f'lag_{lag}'] =
current_features[f'lag_{lag-1}']`, guarded on both keys being present. -/
def shiftStep (m : Features) (k : ℕ) : Features :=
  match m (lagName k), m (lagName (k - 1)) with
  | some _, some v => updKey m (lagName k) v
  | _, _ => m

/-- `for lag in range(24, 1, -1)` over `shiftStep`. -/
def shiftLags (m : Features) : Features :=
  ((List.range' 2 23).reverse).foldl shiftStep m

/-- Lines 191–193 of `predict`: refresh `hour`, `hour_sin`, `hour_cos` for
the next forecast timestamp (`forecast_time.hour = ft mod 24` on the linear
clock). -/
noncomputable def updateHour (ft : ℤ) (cur : Features) : Features :=
  let c1 := updKey cur "hour" ((ft % 24 : ℤ) : ℝ)
  let c2 := updKey c1 "hour_sin" (Real.sin (2 * Real.pi * ((ft % 24 : ℤ) : ℝ) / 24))
  updKey c2 "hour_cos" (Real.cos (2 * Real.pi * ((ft % 24 : ℤ) : ℝ) / 24))

/-- The feature update between two forecast steps: refresh the hour
features, then (when `lag_1` is a feature) run the guarded shift loop and
write the fresh prediction into `lag_1`. -/
noncomputable def updateFeatures (pred : ℝ) (ft : ℤ) (cur : Features) : Features :=
  let c3 := updateHour ft cur
  if (c3 "lag_1").isSome then updKey (shiftLags c3) "lag_1" pred
  else c3

/-- One forecast record. -/
structure ForecastPoint where
  timestamp : ℤ
  pollutant_type : String
  predicted_value : ℝ
  forecast_hour : ℕ
  confidence : String

/-- The `for hour in range(1, hours + 1)` loop of `predict`: `k` forecasts
remain, the next one is numbered `hour`. -/
noncomputable def predictLoop (model : Model) (p : String) (lastTs : ℤ) :
    ℕ → ℕ → Features → List ForecastPoint
  | 0, _, _ => []
  | k + 1, hour, cur =>
    let prediction := model cur
    let ft := lastTs + hour
    ⟨ft, p, prediction, hour, "medium"⟩ ::
      predictLoop model p lastTs k (hour + 1) (updateFeatures prediction ft cur)

/-- `ForecastingEngine.predict`: no stored model → `[]` (not an error);
`df_features.iloc[-1]` raises `IndexError` on an empty engineered frame;
otherwise seed the feature dict from the last engineered row restricted to
`feature_columns` and run the recursive loop. -/
noncomputable def predict (e : Engine) (df : List SeriesRow) (p : String) (hours : ℕ) :
    Except String (List ForecastPoint) :=
  match e.models p with
  | none => .ok []
  | some model =>
    match (prepare_features df).getLast? with
    | none => .error "IndexError"
    | some last_row =>
      .ok (predictLoop model p last_row.timestamp hours 1
        (currentFeatures e.feature_columns last_row))

/-- A seed feature dict carrying exactly the lag offsets {1, 2, 3, 6, 12,
24} that `prepare_features` engineers, with pairwise distinct values. -/
noncomputable def exFeatures : Features := fun s =>
  if s = "lag_1" then some 1 else if s = "lag_2" then some 2
  else if s = "lag_3" then some 3 else if s = "lag_6" then some 6
  else if s = "lag_12" then some 12 else if s = "lag_24" then some 24 else none

/-! ## Claims C1, C10 — AQI calculator -/

/-- Scan helper: a concentration inside no breakpoint row makes the scan
fall through. -/
theorem findBp_eq_none (c : ℚ) (l : List (ℚ × ℚ × ℚ × ℚ))
    (h : ∀ bp ∈ l, ¬(bp.1 ≤ c ∧ c ≤ bp.2.1)) : findBp c l = none := by
  induction l with
  | nil => rfl
  | cons bp rest ih =>
    have h1 := h bp (List.mem_cons_self bp rest)
    simp only [findBp, if_neg h1]
    exact ih fun x hx => h x (List.mem_cons_of_mem bp hx)

/-- C1: `calculate_aqi` evaluated at the spec's three test points. The code
computes `category_index = min(int(aqi/50), 5)`, so the boundary
concentration 12.0 (aqi exactly 50) lands in index 1, "Moderate" — not
"Good" as the spec claims — and 35.4 (aqi exactly 100) lands in index 2,
"Unhealthy for Sensitive Groups" — not "Moderate". Only the
above-all-breakpoints case (600 → 500/"Hazardous") behaves as claimed. -/
theorem calculate_aqi_at_spec_points :
    calculate_aqi "PM2.5" 12 = ⟨some 50, "Moderate"⟩
    ∧ calculate_aqi "PM2.5" (35.4 : ℚ) = ⟨some 100, "Unhealthy for Sensitive Groups"⟩
    ∧ calculate_aqi "PM2.5" 600 = ⟨some 500, "Hazardous"⟩ := by
  refine ⟨?_, ?_, ?_⟩ <;>
    (norm_num [calculate_aqi, breakpoints, findBp, pyInt, pyRound, categories]; try rfl)

/-- C10: for a pollutant present in the breakpoint table, any concentration
that lies inside no breakpoint row — negative, or strictly inside a gap
between rows — yields `{aqi: 500, category: "Hazardous"}`, exactly like a
concentration above the top row. -/
theorem calculate_aqi_no_matching_row (p : String) (c : ℚ) (tbl : List (ℚ × ℚ × ℚ × ℚ))
    (h1 : breakpoints p = some tbl)
    (h2 : ∀ bp ∈ tbl, ¬(bp.1 ≤ c ∧ c ≤ bp.2.1)) :
    calculate_aqi p c = ⟨some 500, "Hazardous"⟩ := by
  simp only [calculate_aqi, h1, findBp_eq_none c tbl h2]

/-- C10 witness: PM2.5 at 12.05 (strictly between the first row's upper
bound 12.0 and the second row's lower bound 12.1) and at −1 (below every
row) both map to 500/"Hazardous". -/
theorem calculate_aqi_no_matching_row_witness :
    (∀ bp ∈ [((0 : ℚ), (12.0 : ℚ), (0 : ℚ), (50 : ℚ)), (12.1, 35.4, 51, 100),
        (35.5, 55.4, 101, 150), (55.5, 150.4, 151, 200), (150.5, 250.4, 201, 300),
        (250.5, 500.4, 301, 500)], ¬(bp.1 ≤ (12.05 : ℚ) ∧ (12.05 : ℚ) ≤ bp.2.1))
    ∧ calculate_aqi "PM2.5" (12.05 : ℚ) = ⟨some 500, "Hazardous"⟩
    ∧ calculate_aqi "PM2.5" (-1) = ⟨some 500, "Hazardous"⟩ :=
  ⟨by norm_num,
   calculate_aqi_no_matching_row "PM2.5" (12.05 : ℚ) _ rfl (by norm_num),
   calculate_aqi_no_matching_row "PM2.5" (-1) _ rfl (by norm_num)⟩

/-! ## Claim C6 — unit normalizer -/

/-- C6: for every pollutant and unit in the conversion table the normalizer
multiplies by the table factor; `µg/m³` is the identity for every pollutant;
a unit not listed for a tabled pollutant falls back to factor 1; a missing
(`None`/NaN) value propagates as `None` instead of raising. -/
theorem normalize_value_spec : ∀ (p u : String) (v : ℚ),
    (∀ tbl f, CONVERSION_FACTORS p = some tbl → tbl.lookup u = some f →
      normalize_value (some v) p u = some (v * f))
    ∧ normalize_value (some v) p "µg/m³" = some v
    ∧ (∀ tbl, CONVERSION_FACTORS p = some tbl → tbl.lookup u = none →
      normalize_value (some v) p u = some v)
    ∧ normalize_value none p u = none := by
  intro p u v
  refine ⟨fun tbl f h1 h2 => by simp [normalize_value, h1, h2], ?_, ?_, rfl⟩
  · rcases h : CONVERSION_FACTORS p with _ | tbl
    · simp [normalize_value, h]
    · have hl : tbl.lookup "µg/m³" = some 1 := by
        unfold CONVERSION_FACTORS at h
        split at h <;>
          first
            | exact Option.noConfusion h
            | (injection h with h; subst h; rfl)
      simp [normalize_value, h, hl]
  · intro tbl h1 h2
    norm_num [normalize_value, h1, h2]

/-! ## Claim C9 — harmonizer on empty input -/

/-- C9: `harmonize_all_data` on empty satellite, ground and weather lists
returns the empty list (each stage is total, so nothing is raised). -/
theorem harmonize_all_data_empty : ∀ now : String,
    harmonize_all_data now [] [] [] = [] := fun _ => rfl

/-! ## Claims C5, C7, C8 — validator -/

/-- Bounds that every metrics result satisfies, shared by C5 and C7. -/
theorem metrics_bounds (thr : ℚ) (t : VRecord) (ms : List VRecord) :
    0 ≤ (calculate_validation_metrics thr t ms).confidence ∧
    (calculate_validation_metrics thr t ms).confidence ≤ 1 ∧
    0 ≤ (calculate_validation_metrics thr t ms).relative_diff := by
  have hrd : (0 : ℚ) ≤
      (if 0 < listMean (ms.map (·.value)) then
        |t.value - listMean (ms.map (·.value))| / listMean (ms.map (·.value)) else 0) := by
    split
    · exact div_nonneg (abs_nonneg _) (le_of_lt (by assumption))
    · exact le_refl 0
  refine ⟨?_, ?_, ?_⟩
  · show (0 : ℚ) ≤ max 0 _
    exact le_max_left _ _
  · show max 0 (1 - _) ≤ 1
    exact max_le (by norm_num) (by linarith)
  · exact hrd

/-- C7: every `ValidationResult` produced by `validate_against_ground`, for
every input batch and parameter choice, has `confidence ∈ [0, 1]` and
`relative_diff ≥ 0`. -/
theorem validate_confidence_in_bounds : ∀ (thr maxd maxt : ℚ) (tempo ground : List VRecord),
    (validate_against_ground thr tempo ground maxd maxt).Forall
      fun r => 0 ≤ r.confidence ∧ r.confidence ≤ 1 ∧ 0 ≤ r.relative_diff := by
  intro thr maxd maxt tempo ground
  rw [List.forall_iff_forall_mem]
  intro r hr
  unfold validate_against_ground at hr
  split at hr
  · simp at hr
  · rw [List.mem_filterMap] at hr
    obtain ⟨t, -, ht⟩ := hr
    dsimp only at ht
    split at ht
    · exact absurd ht (by simp)
    · rw [Option.some.injEq] at ht
      rw [← ht]
      exact metrics_bounds thr t _

/-- Fold the validator's per-record `if` into a filter-then-map. -/
theorem filterMap_skip_eq_map_filter {α β : Type _} (f : α → β) (c : α → Bool) :
    ∀ l : List α, (l.filterMap fun a => if c a then none else some (f a))
      = (l.filter fun a => !(c a)).map f := by
  intro l
  induction l with
  | nil => rfl
  | cons a l ih =>
    by_cases h : c a <;>
      simp [List.filterMap_cons, List.filter_cons, h, ih]

/-- C8: a satellite record with zero ground matches (same pollutant within
the haversine distance bound and the time-difference bound) contributes no
`ValidationResult`, and an empty input list on either side yields `[]`; no
branch raises. -/
theorem validate_skips_unmatched : ∀ (thr maxd maxt : ℚ) (tempo ground : List VRecord),
    (tempo.isEmpty = true ∨ ground.isEmpty = true →
      validate_against_ground thr tempo ground maxd maxt = [])
    ∧ validate_against_ground thr tempo ground maxd maxt =
        (tempo.filter fun t =>
            !(find_matching_ground_measurements t ground maxd maxt).isEmpty).map
          fun t => calculate_validation_metrics thr t
            (find_matching_ground_measurements t ground maxd maxt) := by
  intro thr maxd maxt tempo ground
  constructor
  · intro h
    unfold validate_against_ground
    have : (tempo.isEmpty || ground.isEmpty) = true := by
      rcases h with h | h <;> simp [h]
    rw [if_pos this]
  · unfold validate_against_ground
    split
    · rename_i h
      rw [Bool.or_eq_true] at h
      rcases h with h | h
      · rw [List.isEmpty_iff] at h
        subst h
        rfl
      · rw [List.isEmpty_iff] at h
        subst h
        symm
        rw [List.eq_nil_iff_forall_not_mem]
        intro r hr
        rw [List.mem_map] at hr
        obtain ⟨t, ht, -⟩ := hr
        rw [List.mem_filter] at ht
        exact absurd ht.2 (by simp [find_matching_ground_measurements])
    · exact filterMap_skip_eq_map_filter _ _ tempo

/-- Confidence-level thresholds shared by the C5 statement. -/
theorem confidence_level_bands (c : ℚ) :
    ((if 0.8 ≤ c then "high" else if 0.6 ≤ c then "medium" else "low") = "high" ↔ 0.8 ≤ c)
    ∧ ((if 0.8 ≤ c then "high" else if 0.6 ≤ c then "medium" else "low") = "medium" ↔
        0.6 ≤ c ∧ c < 0.8)
    ∧ ((if 0.8 ≤ c then "high" else if 0.6 ≤ c then "medium" else "low") = "low" ↔
        c < 0.6) := by
  split_ifs with h1 h2
  · refine ⟨by simp [h1], ⟨fun h => by simp at h, fun h => absurd h1 (by linarith [h.2])⟩,
      ⟨fun h => by simp at h, fun h => absurd h1 (by linarith)⟩⟩
  · refine ⟨⟨fun h => by simp at h, fun h => absurd h h1⟩, by simp [h1, h2, not_le.mp h1],
      ⟨fun h => by simp at h, fun h => absurd h2 (by linarith)⟩⟩
  · refine ⟨⟨fun h => by simp at h, fun h => absurd h h1⟩,
      ⟨fun h => by simp at h, fun h => absurd h.1 h2⟩, by simp [not_le.mp h2]⟩

/-- C5: at the spec's example (satellite value 25.0, single ground match
28.0) the metrics are relative_diff = 3/28 (≈ 0.1071),
confidence = 25/28 (≈ 0.8929) and confidence_level "high"; in general the
level is "high" iff confidence ≥ 0.8, "medium" iff 0.6 ≤ confidence < 0.8,
"low" iff confidence < 0.6, and a non-positive ground mean forces
relative_diff = 0. -/
theorem metrics_example_and_levels :
    ((calculate_validation_metrics 0.3 ⟨0, 0, 0, "NO2", 25⟩
        [⟨0, 0, 0, "NO2", 28⟩]).relative_diff = 3 / 28
      ∧ (calculate_validation_metrics 0.3 ⟨0, 0, 0, "NO2", 25⟩
        [⟨0, 0, 0, "NO2", 28⟩]).confidence = 25 / 28
      ∧ (calculate_validation_metrics 0.3 ⟨0, 0, 0, "NO2", 25⟩
        [⟨0, 0, 0, "NO2", 28⟩]).confidence_level = "high")
    ∧ ∀ (thr : ℚ) (t : VRecord) (ms : List VRecord),
        ((calculate_validation_metrics thr t ms).confidence_level = "high" ↔
          0.8 ≤ (calculate_validation_metrics thr t ms).confidence)
        ∧ ((calculate_validation_metrics thr t ms).confidence_level = "medium" ↔
          0.6 ≤ (calculate_validation_metrics thr t ms).confidence ∧
            (calculate_validation_metrics thr t ms).confidence < 0.8)
        ∧ ((calculate_validation_metrics thr t ms).confidence_level = "low" ↔
          (calculate_validation_metrics thr t ms).confidence < 0.6)
        ∧ ((calculate_validation_metrics thr t ms).ground_mean ≤ 0 →
          (calculate_validation_metrics thr t ms).relative_diff = 0) := by
  constructor
  · refine ⟨?_, ?_, ?_⟩
    · show (if (0:ℚ) < listMean [28] then |(25:ℚ) - listMean [28]| / listMean [28] else 0) = 3 / 28
      norm_num [listMean]
    · show max 0 (1 - (if (0:ℚ) < listMean [28] then
        |(25:ℚ) - listMean [28]| / listMean [28] else 0)) = 25 / 28
      norm_num [listMean]
    · show (if (0.8:ℚ) ≤ max 0 (1 - (if (0:ℚ) < listMean [28] then
          |(25:ℚ) - listMean [28]| / listMean [28] else 0)) then "high"
        else if (0.6:ℚ) ≤ max 0 (1 - (if (0:ℚ) < listMean [28] then
          |(25:ℚ) - listMean [28]| / listMean [28] else 0)) then "medium"
        else "low") = "high"
      norm_num [listMean]
  · intro thr t ms
    have hlvl : (calculate_validation_metrics thr t ms).confidence_level =
        (if 0.8 ≤ (calculate_validation_metrics thr t ms).confidence then "high"
         else if 0.6 ≤ (calculate_validation_metrics thr t ms).confidence then "medium"
         else "low") := rfl
    refine ⟨?_, ?_, ?_, ?_⟩
    · rw [hlvl]
      exact (confidence_level_bands _).1
    · rw [hlvl]
      exact (confidence_level_bands _).2.1
    · rw [hlvl]
      exact (confidence_level_bands _).2.2
    · intro hm
      have hm' : listMean (ms.map (·.value)) ≤ 0 := hm
      show (if 0 < listMean (ms.map (·.value)) then
        |t.value - listMean (ms.map (·.value))| / listMean (ms.map (·.value)) else 0) = 0
      rw [if_neg (not_lt.mpr hm')]

/-- C2 counterexample. First conjunct: on a batch whose only partition has
a single record, `flag_anomalies` raises (`KeyError: 'is_anomaly'`) instead
of returning the record with `is_anomaly = False`. Second conjunct: on the
partition `[0, 0, 3]` (mean 1) the produced z-score of the third record is
`2/sqrt 3` — `|value − mean|` over the SAMPLE standard deviation
(pandas `std()`, ddof = 1) — which differs from the claim's
`|value − mean| / population standard deviation = 2/sqrt 2`. -/
theorem flag_anomalies_claim_counterexample :
    flag_anomalies [⟨"PM2.5", 5⟩] 3 = .error "is_anomaly"
    ∧ zOf (flag_anomalies [⟨"A", 0⟩, ⟨"A", 0⟩, ⟨"A", 3⟩] 3) 2 ≠
        |(3 : ℝ) - 1| / Real.sqrt ((((0:ℝ) - 1) ^ 2 + ((0:ℝ) - 1) ^ 2 + ((3:ℝ) - 1) ^ 2) / 3) := by
  constructor
  · rfl
  · have hg : groupValues [⟨"A", 0⟩, ⟨"A", 0⟩, ⟨"A", 3⟩] "A" = [0, 0, 3] := rfl
    have hmean : listMean [0, 0, 3] = 1 := by norm_num [listMean]
    have hvar : sampleVar [0, 0, 3] = 3 := by norm_num [sampleVar, listMean]
    have hbig : hasBigPartition [⟨"A", 0⟩, ⟨"A", 0⟩, ⟨"A", 3⟩] = true := rfl
    have hz : zOf (flag_anomalies [⟨"A", 0⟩, ⟨"A", 0⟩, ⟨"A", 3⟩] 3) 2 =
        (2 : ℝ) / Real.sqrt 3 := by
      simp only [flag_anomalies, hbig, List.isEmpty_cons, if_true, if_false, Bool.false_eq_true,
        zOf, List.map_cons, List.get?, flagRecord, hg, hmean, hvar]
      rw [if_pos (show (0:ℝ) < Real.sqrt ((3:ℚ):ℝ) from Real.sqrt_pos.mpr (by norm_num))]
      simp only [Option.map, Option.getD]
      push_cast
      norm_num
    rw [hz]
    have hrhs : |(3 : ℝ) - 1| / Real.sqrt ((((0:ℝ) - 1) ^ 2 + ((0:ℝ) - 1) ^ 2 + ((3:ℝ) - 1) ^ 2) / 3)
        = (2 : ℝ) / Real.sqrt 2 := by norm_num
    rw [hrhs]
    intro h
    have h3pos : 0 < Real.sqrt 3 := Real.sqrt_pos.mpr (by norm_num)
    have h2pos : 0 < Real.sqrt 2 := Real.sqrt_pos.mpr (by norm_num)
    have := (div_eq_div_iff h3pos.ne' h2pos.ne').mp h
    have heq : Real.sqrt 2 = Real.sqrt 3 := by linarith
    rw [Real.sqrt_inj (by norm_num) (by norm_num)] at heq
    norm_num at heq

/-- C2 as amended: `flag_anomalies` partitions by `pollutant_type`; an empty
batch returns unchanged; when NO partition has more than 2 samples the call
raises `KeyError`; otherwise every record returns in order, records of
partitions with ≤ 2 samples or zero variance carrying
`z_score = 0, is_anomaly = False`, and records of larger nonzero-variance
partitions carrying `z_score = |value − mean| / sample standard deviation`
(ddof = 1) with `is_anomaly ⟺ z_score > z_threshold`. -/
theorem flag_anomalies_partition_spec : ∀ (data : List ARecord) (thr : ℚ),
    (data.isEmpty = true → flag_anomalies data thr = .ok [])
    ∧ (data.isEmpty = false → hasBigPartition data = false →
        flag_anomalies data thr = .error "is_anomaly")
    ∧ (hasBigPartition data = true →
        flag_anomalies data thr = .ok (data.map (flagRecord data thr)))
    ∧ ∀ r : ARecord,
        ((groupValues data r.pollutant_type).length ≤ 2 →
          (flagRecord data thr r).z_score = 0 ∧ ¬(flagRecord data thr r).is_anomaly)
        ∧ (2 < (groupValues data r.pollutant_type).length →
            sampleVar (groupValues data r.pollutant_type) = 0 →
            (flagRecord data thr r).z_score = 0 ∧ ¬(flagRecord data thr r).is_anomaly)
        ∧ (2 < (groupValues data r.pollutant_type).length →
            0 < sampleVar (groupValues data r.pollutant_type) →
            (flagRecord data thr r).z_score =
              ((|r.value - listMean (groupValues data r.pollutant_type)| : ℚ) : ℝ) /
                Real.sqrt (sampleVar (groupValues data r.pollutant_type))
            ∧ ((flagRecord data thr r).is_anomaly ↔
                (thr : ℝ) < (flagRecord data thr r).z_score)) := by
  intro data thr
  refine ⟨?_, ?_, ?_, ?_⟩
  · intro h
    simp [flag_anomalies, h]
  · intro h1 h2
    simp [flag_anomalies, h1, h2]
  · intro h
    have hne : data.isEmpty = false := by
      cases data
      · simp [hasBigPartition] at h
      · rfl
    simp [flag_anomalies, hne, h]
  · intro r
    refine ⟨?_, ?_, ?_⟩
    · intro h
      have hnl : ¬(2 < (groupValues data r.pollutant_type).length) := not_lt.mpr h
      simp [flagRecord, hnl]
    · intro h1 h2
      simp only [flagRecord]
      rw [if_pos h1, h2, Rat.cast_zero, Real.sqrt_zero, if_neg (lt_irrefl (0 : ℝ))]
      exact ⟨rfl, fun hf => hf⟩
    · intro h1 h2
      simp only [flagRecord]
      rw [if_pos h1, if_pos (Real.sqrt_pos.mpr (by exact_mod_cast h2))]
      exact ⟨rfl, Iff.rfl⟩

/-! ## Claims C3, C4 — forecasting engine -/

/-- The forecast loop emits exactly one point per remaining hour. -/
theorem predictLoop_length (model : Model) (p : String) (lastTs : ℤ) :
    ∀ (k hour : ℕ) (cur : Features), (predictLoop model p lastTs k hour cur).length = k := by
  intro k
  induction k with
  | zero => intro hour cur; rfl
  | succ n ih =>
    intro hour cur
    simp only [predictLoop, List.length_cons, ih]

/-- The `i`-th emitted point is numbered `hour + i`. -/
theorem predictLoop_forecast_hour (model : Model) (p : String) (lastTs : ℤ) :
    ∀ (k hour : ℕ) (cur : Features) (i : ℕ) (pt : ForecastPoint),
      (predictLoop model p lastTs k hour cur).get? i = some pt →
      pt.forecast_hour = hour + i := by
  intro k
  induction k with
  | zero =>
    intro hour cur i pt h
    simp [predictLoop] at h
  | succ n ih =>
    intro hour cur i pt h
    cases i with
    | zero =>
      simp only [predictLoop, List.get?_cons_zero, Option.some.injEq] at h
      rw [← h]
      rfl
    | succ j =>
      simp only [predictLoop, List.get?_cons_succ] at h
      have := ih (hour + 1) _ j pt h
      omega

/-- C3: with no stored model, `predict` returns `[]` and raises nothing;
with a stored model and a nonempty engineered feature frame it returns
exactly N points whose `forecast_hour` fields are 1, 2, ..., N (hence
strictly increasing). -/
theorem predict_count_and_hours : ∀ (e : Engine) (df : List SeriesRow) (p : String) (N : ℕ),
    (e.models p = none → predict e df p N = .ok [])
    ∧ ∀ m : Model, e.models p = some m → (prepare_features df).getLast? ≠ none →
        ∃ out, predict e df p N = .ok out ∧ out.length = N ∧
          ∀ (i : ℕ) (pt : ForecastPoint), out.get? i = some pt →
            pt.forecast_hour = i + 1 := by
  intro e df p N
  constructor
  · intro h
    simp [predict, h]
  · intro m hm hlast
    obtain ⟨lr, hlr⟩ := Option.ne_none_iff_exists'.mp hlast
    refine ⟨_, by simp [predict, hm, hlr], predictLoop_length m p lr.timestamp N 1 (currentFeatures e.feature_columns lr), ?_⟩
    intro i pt h
    have := predictLoop_forecast_hour m p lr.timestamp N 1 _ i pt h
    omega

/-- The f-string lag keys are pairwise distinct below 25. -/
theorem lagName_inj : ∀ a < 25, ∀ b < 25, lagName a = lagName b → a = b := by decide

/-- Lag keys never collide with the hour keys the loop refreshes. -/
theorem lagName_ne_hour_keys : ∀ k < 25,
    lagName k ≠ "hour" ∧ lagName k ≠ "hour_sin" ∧ lagName k ≠ "hour_cos" := by decide

/-- A dict assignment leaves every other key unchanged. -/
theorem updKey_ne (m : Features) (k : String) (v : ℝ) (s : String) (h : s ≠ k) :
    updKey m k v s = m s := if_neg h

/-- The hour refresh touches no lag key. -/
theorem updateHour_lagName (ft : ℤ) (m : Features) (k : ℕ) (hk : k < 25) :
    updateHour ft m (lagName k) = m (lagName k) := by
  obtain ⟨h1, h2, h3⟩ := lagName_ne_hour_keys k hk
  unfold updateHour
  rw [updKey_ne _ _ _ _ h3, updKey_ne _ _ _ _ h2, updKey_ne _ _ _ _ h1]

/-- One guarded shift iteration writes only `lag_{k}`. -/
theorem shiftStep_untouched (m : Features) (k : ℕ) (s : String) (h : lagName k ≠ s) :
    shiftStep m k s = m s := by
  cases h1 : m (lagName k) <;> cases h2 : m (lagName (k - 1)) <;>
    simp only [shiftStep, h1, h2]
  exact if_neg fun he => h he.symm

/-- The whole shift loop leaves keys outside its lag range unchanged. -/
theorem foldl_shiftStep_untouched : ∀ (ks : List ℕ) (m : Features) (s : String),
    (∀ j ∈ ks, lagName j ≠ s) → (ks.foldl shiftStep m) s = m s := by
  intro ks
  induction ks with
  | nil => intro m s _; rfl
  | cons k rest ih =>
    intro m s h
    rw [List.foldl_cons, ih _ s fun j hj => h j (List.mem_cons_of_mem _ hj)]
    exact shiftStep_untouched m k s (h k (List.mem_cons_self _ _))

/-- Behaviour of the descending shift loop at `lag_{k'}` for `k'` in the
iterated range: when both `lag_{k'}` and `lag_{k'-1}` are present it
receives the pre-loop value of `lag_{k'-1}` (the loop descends, so the
source cell is still unwritten when read); when `lag_{k'-1}` is absent the
guard skips and `lag_{k'}` keeps its old value. -/
theorem foldl_shiftStep_shift : ∀ (ks : List ℕ) (m : Features) (k' : ℕ),
    k' ∈ ks → ks.Pairwise (· > ·) → (∀ j ∈ ks, 2 ≤ j ∧ j ≤ 24) →
    (∀ v2, m (lagName k') ≠ none → m (lagName (k' - 1)) = some v2 →
      (ks.foldl shiftStep m) (lagName k') = some v2)
    ∧ (m (lagName (k' - 1)) = none →
      (ks.foldl shiftStep m) (lagName k') = m (lagName k')) := by
  intro ks
  induction ks with
  | nil => intro m k' hk; cases hk
  | cons k rest ih =>
    intro m k' hk hp hb
    have hpc := List.pairwise_cons.mp hp
    rcases List.mem_cons.mp hk with rfl | hk'
    · have hrest : ∀ j ∈ rest, lagName j ≠ lagName k' := by
        intro j hj he
        have hjk : k' > j := hpc.1 j hj
        have hbj := hb j (List.mem_cons_of_mem _ hj)
        have hbk := hb k' (List.mem_cons_self _ _)
        have := lagName_inj j (by omega) k' (by omega) he
        omega
      constructor
      · intro v2 h1 h2
        rw [List.foldl_cons, foldl_shiftStep_untouched rest _ _ hrest]
        obtain ⟨v1, hv1⟩ := Option.ne_none_iff_exists'.mp h1
        simp only [shiftStep, hv1, h2]
        simp [updKey]
      · intro hn
        rw [List.foldl_cons, foldl_shiftStep_untouched rest _ _ hrest]
        cases h1 : m (lagName k') <;> simp only [shiftStep, h1, hn]
    · have hkk : k > k' := hpc.1 k' hk'
      have hbk := hb k (List.mem_cons_self _ _)
      have hbk' := hb k' (List.mem_cons_of_mem _ hk')
      have hne1 : lagName k ≠ lagName k' := fun he => by
        have := lagName_inj k (by omega) k' (by omega) he
        omega
      have hne2 : lagName k ≠ lagName (k' - 1) := fun he => by
        have := lagName_inj k (by omega) (k' - 1) (by omega) he
        omega
      have e1 : shiftStep m k (lagName k') = m (lagName k') :=
        shiftStep_untouched m k _ hne1
      have e2 : shiftStep m k (lagName (k' - 1)) = m (lagName (k' - 1)) :=
        shiftStep_untouched m k _ hne2
      have ihm := ih (shiftStep m k) k' hk' hpc.2 fun j hj => hb j (List.mem_cons_of_mem _ hj)
      constructor
      · intro v2 h1 h2
        rw [List.foldl_cons]
        exact ihm.1 v2 (by rw [e1]; exact h1) (e2.trans h2)
      · intro hn
        rw [List.foldl_cons, ihm.2 (e2.trans hn), e1]

/-- The per-step feature update: `lag_1` receives the fresh prediction, a
`lag_{k'}` whose predecessor key exists receives that predecessor's
previous value, and a `lag_{k'}` whose predecessor key is absent is left
unchanged. -/
theorem updateFeatures_lags (pred : ℝ) (ft : ℤ) (m : Features)
    (hl : (m "lag_1").isSome = true) :
    updateFeatures pred ft m "lag_1" = some pred
    ∧ ∀ k', 2 ≤ k' → k' ≤ 24 →
        (∀ v2, m (lagName k') ≠ none → m (lagName (k' - 1)) = some v2 →
          updateFeatures pred ft m (lagName k') = some v2)
        ∧ (m (lagName (k' - 1)) = none →
          updateFeatures pred ft m (lagName k') = m (lagName k')) := by
  have hc3 : ∀ j < 25, updateHour ft m (lagName j) = m (lagName j) :=
    fun j hj => updateHour_lagName ft m j hj
  have hguard : ((updateHour ft m) "lag_1").isSome = true := by
    rw [show ("lag_1" : String) = lagName 1 from rfl, hc3 1 (by norm_num)]
    exact hl
  have hopen : updateFeatures pred ft m = updKey (shiftLags (updateHour ft m)) "lag_1" pred := by
    unfold updateFeatures
    rw [if_pos hguard]
  have hpair : ((List.range' 2 23).reverse).Pairwise (· > ·) := by decide
  have hbounds : ∀ j ∈ (List.range' 2 23).reverse, 2 ≤ j ∧ j ≤ 24 := by decide
  constructor
  · rw [hopen]
    exact if_pos rfl
  · intro k' h2 h24
    have hmem : k' ∈ (List.range' 2 23).reverse := by
      rw [List.mem_reverse, List.mem_range'_1]
      omega
    have hne1 : lagName k' ≠ "lag_1" := by
      intro he
      have := lagName_inj k' (by omega) 1 (by norm_num) he
      omega
    have hshift := foldl_shiftStep_shift ((List.range' 2 23).reverse)
      (updateHour ft m) k' hmem hpair hbounds
    constructor
    · intro v2 h1 hv2
      rw [hopen, updKey_ne _ _ _ _ hne1]
      exact hshift.1 v2 (by rw [hc3 k' (by omega)]; exact h1)
        (by rw [hc3 (k' - 1) (by omega)]; exact hv2)
    · intro hn
      rw [hopen, updKey_ne _ _ _ _ hne1]
      unfold shiftLags
      rw [hshift.2 (by rw [hc3 (k' - 1) (by omega)]; exact hn)]
      exact hc3 k' (by omega)

/-- A lag column the engineered row does not carry reads as absent. -/
theorem currentFeatures_lag_none (cols : List String) (r : FRow) (k' : ℕ)
    (h : FRow.lookup r (lagName k') = none) : currentFeatures cols r (lagName k') = none := by
  unfold currentFeatures
  split
  · exact h
  · rfl


/-- C4 counterexample: on a feature dict with lag offsets {1,2,3,6,12,24},
after the shift `lag_6` does NOT receive the previous value of `lag_5` —
there is no `lag_5` key, the guard skips k = 6, and `lag_6` keeps its old
value `some 6 ≠ none`. So "for every k from 24 down to 2, lag_k receives
the previous value of lag_{k-1}" fails at k = 6 (and k = 12, 24). -/
theorem lag_shift_claim_counterexample :
    updateFeatures 100 5 exFeatures "lag_6" ≠ exFeatures "lag_5" := by
  rw [show exFeatures "lag_5" = none from rfl]
  rw [show updateFeatures 100 5 exFeatures "lag_6" = some 6 from rfl]
  simp

/-- C4 as amended: each loop step emits its ForecastPoint and recurses on
the updated features; in the update, `lag_1` receives the value just
predicted and `lag_k` receives the previous value of `lag_{k-1}` only for
those k in 24..2 whose key pair both exist — with the engineered offsets
{1,2,3,6,12,24} that is k = 2, 3 only, while `lag_6`, `lag_12`, `lag_24`
keep their previous values (their predecessor keys are absent); feature
rows carry no lag column outside {1,2,3,6,12,24}. -/
theorem predict_lag_window_shift : ∀ (model : Model) (p : String) (lastTs : ℤ)
      (k hour : ℕ) (cur : Features) (pred : ℝ) (ft : ℤ) (m : Features),
    predictLoop model p lastTs (k + 1) hour cur =
      ⟨lastTs + hour, p, model cur, hour, "medium"⟩ ::
        predictLoop model p lastTs k (hour + 1)
          (updateFeatures (model cur) (lastTs + hour) cur)
    ∧ ((m "lag_1").isSome = true →
        updateFeatures pred ft m "lag_1" = some pred
        ∧ ∀ k', 2 ≤ k' → k' ≤ 24 →
            (∀ v2, m (lagName k') ≠ none → m (lagName (k' - 1)) = some v2 →
              updateFeatures pred ft m (lagName k') = some v2)
            ∧ (m (lagName (k' - 1)) = none →
              updateFeatures pred ft m (lagName k') = m (lagName k')))
    ∧ ∀ (cols : List String) (r : FRow) (k' : ℕ), k' ≤ 24 → k' ∉ [1, 2, 3, 6, 12, 24] →
        currentFeatures cols r (lagName k') = none := by
  intro model p lastTs k hour cur pred ft m
  refine ⟨rfl, updateFeatures_lags pred ft m, ?_⟩
  intro cols r k' h1 h2
  interval_cases k' <;>
    first
      | exact absurd (by decide) h2
      | exact currentFeatures_lag_none cols r _ rfl
